import Mathlib

/-!
# Verification of the mini-notes worker (router, auth and notes controllers)

Shallow embedding of the TypeScript sources:
* `src/worker/router.ts` (`Router.handle`, `Router.matchPath`, `Router.getPathParams`)
* `src/worker/controllers/auth.ts` (`AuthController.login/register/generateToken`)
* `src/worker/controllers/notes.ts` (`NotesController` CRUD and `authenticateRequest`)

JavaScript strings that travel through `btoa`/`atob` are modelled as lists of
character codes (`List Nat`); route patterns, header names and fixed response
messages stay Lean `String`s.  External effects (KV storage, `bcrypt`, the
clock, `crypto.randomUUID`) are passed as explicit arguments.
-/

namespace MiniNotes

/-- Character codes of a Lean string literal; the model of a JS string value. -/
def strB (s : String) : List Nat := s.toList.map Char.toNat

/-- `String.prototype.split(sep)` for a one-character separator, on char codes. -/

def splitOnByte (sep : Nat) : List Nat → List (List Nat)
  | [] => [[]]
  | c :: rest =>
    match splitOnByte sep rest with
    | [] => [[]]
    | s :: ss => if c = sep then [] :: s :: ss else (c :: s) :: ss

/-- JS truthiness of a possibly-absent string field (`undefined`/`null`/`""` are falsy). -/

def jsTruthy (o : Option (List Nat)) : Bool :=
  match o with
  | none => false
  | some s => decide (s ≠ [])

end MiniNotes

namespace MiniNotes.B64

/-- Value → character code, over the standard base64 alphabet. -/
def encChar (n : Nat) : Nat :=
  if n < 26 then 65 + n
  else if n < 52 then 97 + (n - 26)
  else if n < 62 then 48 + (n - 52)
  else if n = 62 then 43
  else 47

/-- Character code → value, over the standard base64 alphabet (`none` off-alphabet). -/

def decChar (c : Nat) : Option Nat :=
  if 65 ≤ c ∧ c ≤ 90 then some (c - 65)
  else if 97 ≤ c ∧ c ≤ 122 then some (c - 97 + 26)
  else if 48 ≤ c ∧ c ≤ 57 then some (c - 48 + 52)
  else if c = 43 then some 62
  else if c = 47 then some 63
  else none

/-- Base64 encoding of a byte sequence (codes of the encoded characters; 61 is `=`). -/

def encodeB64 : List Nat → List Nat
  | [] => []
  | [a] => [encChar (a / 4), encChar (a % 4 * 16), 61, 61]
  | [a, b] => [encChar (a / 4), encChar (a % 4 * 16 + b / 16), encChar (b % 16 * 4), 61]
  | a :: b :: c :: rest =>
    encChar (a / 4) :: encChar (a % 4 * 16 + b / 16) :: encChar (b % 16 * 4 + c / 64) ::
      encChar (c % 64) :: encodeB64 rest

/-- Base64 decoding; `none` models the `InvalidCharacterError` thrown by `atob`. -/

def decodeB64 : List Nat → Option (List Nat)
  | [] => some []
  | c1 :: c2 :: c3 :: c4 :: rest =>
    (decChar c1).bind fun s1 =>
    (decChar c2).bind fun s2 =>
    if c3 = 61 then
      if c4 = 61 ∧ rest = [] then some [s1 * 4 + s2 / 16] else none
    else
      (decChar c3).bind fun s3 =>
      if c4 = 61 then
        if rest = [] then some [s1 * 4 + s2 / 16, s2 % 16 * 16 + s3 / 4] else none
      else
        (decChar c4).bind fun s4 =>
        (decodeB64 rest).map fun tail =>
          (s1 * 4 + s2 / 16) :: (s2 % 16 * 16 + s3 / 4) :: (s3 % 4 * 64 + s4) :: tail
  | _ => none

def btoaB (s : List Nat) : Option (List Nat) :=
  if s.all (fun c => c < 256) then some (encodeB64 s) else none

/-- `atob`: throws (`none`) on input that is not valid base64. -/

def atobB (s : List Nat) : Option (List Nat) := decodeB64 s

end MiniNotes.B64

namespace MiniNotes

/-! ## HTTP response model

`Response` bodies are JSON-stringified values; we keep them structured.  The
headers are the literal pairs set by the code. -/
/-- A note record, as stored in the `NOTES` KV namespace (`notes.ts`, `interface Note`). -/
structure Note where
  id : List Nat
  userId : List Nat
  title : List Nat
  content : List Nat
  createdAt : List Nat
  updatedAt : List Nat
  deriving DecidableEq

/-- A user record, as stored in the `USERS` KV namespace (`auth.ts`, `interface User`). -/

structure User where
  id : List Nat
  username : List Nat
  passwordHash : List Nat
  createdAt : List Nat
  deriving DecidableEq

/-- The structured JSON bodies this worker produces. -/

inductive RespBody where
  | jsonError (message : String)
  | authOk (token : List Nat) (id : List Nat) (username : List Nat) (createdAt : List Nat)
  | noteList (notes : List Note)
  | noteOne (note : Note)
  | jsonMsg (message : String)
  | textBody (s : String)
  | emptyBody
  deriving DecidableEq

structure HttpResponse where
  status : Nat
  headers : List (String × String)
  body : RespBody
  deriving DecidableEq

/-- Headers attached by `jsonResponse` in both controllers. -/

def jsonHeaders : List (String × String) :=
  [("Content-Type", "application/json"), ("Access-Control-Allow-Origin", "*")]

/-- `jsonResponse(data, status)` of the controllers. -/

def jsonResponse (data : RespBody) (status : Nat) : HttpResponse :=
  { status := status, headers := jsonHeaders, body := data }

/-- `errorResponse(message, status)` of the controllers: `{error: message}`. -/

def errorResponse (message : String) (status : Nat) : HttpResponse :=
  jsonResponse (.jsonError message) status

/-! ## AuthController (`src/worker/controllers/auth.ts`) and
`NotesController.authenticateRequest` (`src/worker/controllers/notes.ts`) -/
/-- `AuthController.generateToken(userId)`: `btoa(`${userId}:${timestamp}:${random}`)`.
`timestamp` (`Date.now().toString()`) and `random` (`crypto.randomUUID()`) are
inputs of the model.  `none` models a thrown `btoa` error. -/
def generateToken (userId timestamp random : List Nat) : Option (List Nat) :=
  B64.btoaB (userId ++ [58] ++ timestamp ++ [58] ++ random)

/-- `NotesController.authenticateRequest(request)`: reads the `Authorization`
header (an absent header is `none`), requires the `Bearer ` shape, strips the
first 7 characters, `atob`-decodes, splits on `:` and returns the first
segment (`null` when that segment is empty or anything throws). -/

def authenticateRequest (authHeader : Option (List Nat)) : Option (List Nat) :=
  match authHeader with
  | none => none
  | some h =>
    if (strB "Bearer ").isPrefixOf h then
      let token := h.drop 7
      match B64.atobB token with
      | none => none
      | some decoded =>
        match splitOnByte 58 decoded with
        | [] => none
        | userId :: _ => if userId = [] then none else some userId
  else none

/-! ## KV storage model

Cloudflare KV namespaces are modelled as association lists; `put` overwrites,
`get` is lookup, `delete` removes, `list({prefix})` filters keys. -/
abbrev NotesStore := List (List Nat × Note)

abbrev UserStore := List (List Nat × User)

def kvGet (store : NotesStore) (k : List Nat) : Option Note :=
  (store.find? (fun e => e.1 = k)).map (fun e => e.2)

def kvPut (store : NotesStore) (k : List Nat) (v : Note) : NotesStore :=
  store.filter (fun e => ¬ e.1 = k) ++ [(k, v)]

def kvDelete (store : NotesStore) (k : List Nat) : NotesStore :=
  store.filter (fun e => ¬ e.1 = k)

def kvListKeys (store : NotesStore) (p : List Nat) : List (List Nat) :=
  (store.map (fun e => e.1)).filter (fun k => p.isPrefixOf k)

def kvGetUser (users : UserStore) (k : List Nat) : Option User :=
  (users.find? (fun e => e.1 = k)).map (fun e => e.2)

def kvPutUser (users : UserStore) (k : List Nat) (v : User) : UserStore :=
  users.filter (fun e => ¬ e.1 = k) ++ [(k, v)]

/-- Stable insertion sort: the model of `Array.prototype.sort` with a comparator
(`le a b` means the comparator puts `a` no later than `b`). -/

def insertLe {α : Type} (le : α → α → Bool) (x : α) : List α → List α
  | [] => [x]
  | y :: rest => if le x y then x :: y :: rest else y :: insertLe le x rest

def sortLe {α : Type} (le : α → α → Bool) : List α → List α
  | [] => []
  | x :: rest => insertLe le x (sortLe le rest)

/-! ## NotesController handlers (`src/worker/controllers/notes.ts`)

External inputs appear as arguments: `authHeader` (the `Authorization` header),
`getTime` (`new Date(s).getTime()`), `newId` (`crypto.randomUUID()`), `now`
(`new Date().toISOString()`), `pathname` (`new URL(request.url).pathname`). -/
def noteKey (userId noteId : List Nat) : List Nat :=
  strB "user:" ++ userId ++ strB ":notes:" ++ noteId

def userNotesKey (userId : List Nat) : List Nat :=
  strB "user:" ++ userId ++ strB ":notes"

/-- `NotesController.getNotes`: list keys with the user prefix, fetch each,
sort newest-updated first. -/

def getNotes (getTime : List Nat → Int) (authHeader : Option (List Nat))
    (store : NotesStore) : HttpResponse :=
  match authenticateRequest authHeader with
  | none => errorResponse "Unauthorized" 401
  | some userId =>
    let keys := kvListKeys store (userNotesKey userId)
    let notes := keys.filterMap (fun k => kvGet store k)
    let sorted := sortLe (fun a b => getTime b.updatedAt ≤ getTime a.updatedAt) notes
    jsonResponse (.noteList sorted) 200

/-- Request body of `createNote`/`updateNote`; `none` is an absent JSON field. -/

structure NoteBody where
  title : Option (List Nat)
  content : Option (List Nat)

/-- `NotesController.createNote`. -/

def createNote (authHeader : Option (List Nat)) (body : NoteBody) (newId now : List Nat)
    (store : NotesStore) : HttpResponse × NotesStore :=
  match authenticateRequest authHeader with
  | none => (errorResponse "Unauthorized" 401, store)
  | some userId =>
    if !jsTruthy body.title || !jsTruthy body.content then
      (errorResponse "Title and content are required" 400, store)
    else
      let note : Note :=
        { id := newId, userId := userId, title := body.title.getD [],
          content := body.content.getD [], createdAt := now, updatedAt := now }
      (jsonResponse (.noteOne note) 201, kvPut store (noteKey userId newId) note)

/-- `url.pathname.split('/').pop()`. -/

def lastSeg (pathname : List Nat) : List Nat :=
  (splitOnByte 47 pathname).getLastD []

/-- `NotesController.updateNote`. -/

def updateNote (authHeader : Option (List Nat)) (pathname : List Nat) (body : NoteBody)
    (now : List Nat) (store : NotesStore) : HttpResponse × NotesStore :=
  match authenticateRequest authHeader with
  | none => (errorResponse "Unauthorized" 401, store)
  | some userId =>
    let noteId := lastSeg pathname
    if noteId = [] then (errorResponse "Note ID is required" 400, store)
    else if !jsTruthy body.title && !jsTruthy body.content then
      (errorResponse "At least title or content must be provided" 400, store)
    else
      match kvGet store (noteKey userId noteId) with
      | none => (errorResponse "Note not found" 404, store)
      | some existingNote =>
        let updatedNote : Note :=
          { existingNote with
            title := body.title.getD existingNote.title,
            content := body.content.getD existingNote.content,
            updatedAt := now }
        (jsonResponse (.noteOne updatedNote) 200, kvPut store (noteKey userId noteId) updatedNote)

/-- `NotesController.deleteNote`. -/

def deleteNote (authHeader : Option (List Nat)) (pathname : List Nat)
    (store : NotesStore) : HttpResponse × NotesStore :=
  match authenticateRequest authHeader with
  | none => (errorResponse "Unauthorized" 401, store)
  | some userId =>
    let noteId := lastSeg pathname
    if noteId = [] then (errorResponse "Note ID is required" 400, store)
    else
      match kvGet store (noteKey userId noteId) with
      | none => (errorResponse "Note not found" 404, store)
      | some _ => (jsonResponse (.jsonMsg "Note deleted successfully") 200,
                   kvDelete store (noteKey userId noteId))

/-! ## AuthController handlers (`src/worker/controllers/auth.ts`)

`compare`/`hash` stand for `bcrypt.compare`/`bcrypt.hash` (an external salted
hash); `timestamp` is `Date.now().toString()`, `random`/`newId` are
`crypto.randomUUID()`, `now` is `new Date().toISOString()`. -/
/-- Request body of `login`/`register`; `none` is an absent JSON field. -/
structure AuthBody where
  username : Option (List Nat)
  password : Option (List Nat)

/-- `AuthController.login`. -/

def login (compare : List Nat → List Nat → Bool) (users : UserStore) (body : AuthBody)
    (timestamp random : List Nat) : HttpResponse :=
  if !jsTruthy body.username || !jsTruthy body.password then
    errorResponse "Username and password are required" 400
  else
    match kvGetUser users (body.username.getD []) with
    | none => errorResponse "Invalid credentials" 401
    | some user =>
      if !(compare (body.password.getD []) user.passwordHash) then
        errorResponse "Invalid credentials" 401
      else
        match generateToken user.id timestamp random with
        | none => errorResponse "Internal server error" 500
        | some token => jsonResponse (.authOk token user.id user.username user.createdAt) 200

/-- `AuthController.register`.  The user record is stored before the token is
generated, matching the statement order of the source. -/

def register (hash : List Nat) (users : UserStore) (body : AuthBody)
    (newId now timestamp random : List Nat) : HttpResponse × UserStore :=
  if !jsTruthy body.username || !jsTruthy body.password then
    (errorResponse "Username and password are required" 400, users)
  else if (body.password.getD []).length < 6 then
    (errorResponse "Password must be at least 6 characters" 400, users)
  else
    match kvGetUser users (body.username.getD []) with
    | some _ => (errorResponse "Username already exists" 409, users)
    | none =>
      let user : User :=
        { id := newId, username := body.username.getD [],
          passwordHash := hash, createdAt := now }
      let stored := kvPutUser users (body.username.getD []) user
      match generateToken user.id timestamp random with
      | none => (errorResponse "Internal server error" 500, stored)
      | some token =>
        (jsonResponse (.authOk token user.id user.username user.createdAt) 201, stored)

/-! ## Router (`src/worker/router.ts`)

A handler may throw: its result is `Except`, with the thrown value as a
`String` payload.  `handle` is the non-`fetch` part of request dispatch. -/
structure Req where
  method : String
  pathname : String

structure Route where
  method : String
  path : String
  handler : Req → Except String HttpResponse

/-- `String.prototype.split(sep)` for a one-character separator, on characters. -/

def splitChar (sep : Char) : List Char → List (List Char)
  | [] => [[]]
  | c :: rest =>
    match splitChar sep rest with
    | [] => [[]]
    | s :: ss => if c = sep then [] :: s :: ss else (c :: s) :: ss

/-- `path.split('/').filter(Boolean)`: the segments of a route pattern or path. -/

def pathParts (p : String) : List (List Char) :=
  (splitChar '/' p.toList).filter (fun s => s ≠ [])

/-- `segment.startsWith(':')`. -/

def segStartsWithColon : List Char → Bool
  | ':' :: _ => true
  | _ => false

/-- `Router.matchPath(routePath, requestPath)`: equal segment count, and each
pattern segment is a `:param` or literally equal to the path segment. -/

def matchPath (routePath requestPath : String) : Bool :=
  let routeParts := pathParts routePath
  let requestParts := pathParts requestPath
  routeParts.length == requestParts.length &&
    (routeParts.zip requestParts).all (fun rp => segStartsWithColon rp.1 || rp.1 == rp.2)

/-- `Router.getPathParams(routePath, requestPath)`: `{param: pathSegment}` for
each `:param` segment of the pattern (`slice(1)` drops the marker). -/

def getPathParams (routePath requestPath : String) : List (String × String) :=
  let routeParts := pathParts routePath
  let requestParts := pathParts requestPath
  (List.range routeParts.length).filterMap (fun i =>
    let rp := routeParts.getD i []
    if segStartsWithColon rp then
      some (String.mk (rp.drop 1), String.mk (requestParts.getD i []))
    else none)

/-- The CORS pre-flight response (`new Response(null, …)`, default status 200). -/

def preflightResponse : HttpResponse :=
  { status := 200,
    headers := [("Access-Control-Allow-Origin", "*"),
                ("Access-Control-Allow-Methods", "GET, POST, PUT, DELETE, OPTIONS"),
                ("Access-Control-Allow-Headers", "Content-Type, Authorization")],
    body := .emptyBody }

/-- The catch-all 500 response built inside `Router.handle`. -/

def routeErrorResponse : HttpResponse :=
  { status := 500,
    headers := [("Content-Type", "application/json"), ("Access-Control-Allow-Origin", "*")],
    body := .jsonError "Route handler error" }

/-- The fallback 404 response of `Router.handle`. -/

def notFoundResponse : HttpResponse :=
  { status := 404,
    headers := [("Access-Control-Allow-Origin", "*")],
    body := .textBody "Not found" }

/-- The predicate of `this.routes.find(...)` in `Router.handle`. -/

def routeMatches (r : Route) (req : Req) : Bool :=
  r.method == req.method && matchPath r.path req.pathname

/-- `Router.handle(request)`. -/

def handle (routes : List Route) (req : Req) : HttpResponse :=
  if req.method = "OPTIONS" then preflightResponse
  else
    match routes.find? (fun r => routeMatches r req) with
    | some route =>
      match route.handler req with
      | .ok resp => resp
      | .error _ => routeErrorResponse
    | none => notFoundResponse

/-- Well-formed `NOTES` store: every entry sits under the composite key built
from its own (colon-free, UUID-shaped) owner id and note id. -/
abbrev WFNotes (store : NotesStore) : Prop :=
  ∀ e ∈ store, e.1 = noteKey e.2.userId e.2.id ∧ (58 : Nat) ∉ e.2.userId

end MiniNotes

namespace MiniNotes

theorem splitOnByte_ne_nil (sep : Nat) (l : List Nat) : splitOnByte sep l ≠ [] := by
  cases l with
  | nil => simp [splitOnByte]
  | cons c rest =>
    simp only [splitOnByte]
    rcases h : splitOnByte sep rest with _ | ⟨s, ss⟩
    · simp
    · dsimp only
      split <;> simp

/-- The first element of `split(sep)` is the run of characters before the first `sep`. -/

theorem splitOnByte_head (sep : Nat) (l : List Nat) :
    (splitOnByte sep l).head? = some (l.takeWhile (fun c => c ≠ sep)) := by
  induction l with
  | nil => simp [splitOnByte]
  | cons c rest ih =>
    simp only [splitOnByte]
    rcases h : splitOnByte sep rest with _ | ⟨s, ss⟩
    · exact absurd h (splitOnByte_ne_nil sep rest)
    · rw [h] at ih
      simp only [List.head?] at ih
      by_cases hc : c = sep
      · simp [hc, List.takeWhile]
      · simp [hc, List.takeWhile, Option.some.injEq] at ih ⊢
        exact ih

end MiniNotes

namespace MiniNotes.B64

theorem decChar_encChar_fin : ∀ n : Fin 64, decChar (encChar n.val) = some n.val := by decide

theorem decChar_encChar (n : Nat) (h : n < 64) : decChar (encChar n) = some n :=
  decChar_encChar_fin ⟨n, h⟩

theorem encChar_ne_pad_fin : ∀ n : Fin 64, encChar n.val ≠ 61 := by decide

theorem encChar_ne_pad (n : Nat) (h : n < 64) : encChar n ≠ 61 :=
  encChar_ne_pad_fin ⟨n, h⟩

/-- Decoding inverts encoding on byte sequences. -/

theorem decodeB64_encodeB64 (l : List Nat) (h : ∀ x ∈ l, x < 256) :
    decodeB64 (encodeB64 l) = some l := by
  match l with
  | [] => rfl
  | [a] =>
    have ha : a < 256 := h a (by simp)
    simp only [encodeB64, decodeB64]
    rw [decChar_encChar (a / 4) (by omega), decChar_encChar (a % 4 * 16) (by omega)]
    simp
    omega
  | [a, b] =>
    have ha : a < 256 := h a (by simp)
    have hb : b < 256 := h b (by simp)
    simp only [encodeB64, decodeB64]
    rw [decChar_encChar (a / 4) (by omega), decChar_encChar (a % 4 * 16 + b / 16) (by omega)]
    simp only [Option.some_bind]
    rw [if_neg (encChar_ne_pad (b % 16 * 4) (by omega))]
    rw [decChar_encChar (b % 16 * 4) (by omega)]
    simp
    omega
  | a :: b :: c :: rest =>
    have ha : a < 256 := h a (by simp)
    have hb : b < 256 := h b (by simp)
    have hc : c < 256 := h c (by simp)
    have hrest : ∀ x ∈ rest, x < 256 := by
      intro x hx
      exact h x (by simp [hx])
    simp only [encodeB64, decodeB64]
    rw [decChar_encChar (a / 4) (by omega), decChar_encChar (a % 4 * 16 + b / 16) (by omega)]
    simp only [Option.some_bind]
    rw [if_neg (encChar_ne_pad (b % 16 * 4 + c / 64) (by omega))]
    rw [decChar_encChar (b % 16 * 4 + c / 64) (by omega)]
    simp only [Option.some_bind]
    rw [if_neg (encChar_ne_pad (c % 64) (by omega))]
    rw [decChar_encChar (c % 64) (by omega)]
    simp only [Option.some_bind]
    rw [decodeB64_encodeB64 rest hrest]
    simp only [Option.map_some', Option.some.injEq, List.cons.injEq]
    refine ⟨by omega, by omega, by omega, trivial⟩

/-- `btoa`: throws (`none`) when some character code exceeds 255. -/

theorem atobB_btoaB (s : List Nat) (h : ∀ x ∈ s, x < 256) :
    btoaB s = some (encodeB64 s) ∧ atobB (encodeB64 s) = some s := by
  constructor
  · unfold btoaB
    rw [if_pos]
    simp only [List.all_eq_true, decide_eq_true_eq]
    exact h
  · exact decodeB64_encodeB64 s h

end MiniNotes.B64

namespace MiniNotes

theorem mem_insertLe {α : Type} (le : α → α → Bool) (x y : α) (l : List α) :
    y ∈ insertLe le x l ↔ y = x ∨ y ∈ l := by
  induction l with
  | nil => simp [insertLe]
  | cons z rest ih =>
    simp only [insertLe]
    split
    · simp [List.mem_cons]
    · simp only [List.mem_cons, ih]
      tauto

theorem mem_sortLe {α : Type} (le : α → α → Bool) (y : α) (l : List α) :
    y ∈ sortLe le l ↔ y ∈ l := by
  induction l with
  | nil => simp [sortLe]
  | cons x rest ih =>
    simp only [sortLe, mem_insertLe, List.mem_cons, ih]

/-! ## Helper lemmas -/
theorem zip_all_iff_getD {α β : Type} (f : α × β → Bool) (a : α) (b : β) :
    ∀ (l1 : List α) (l2 : List β), l1.length = l2.length →
      ((l1.zip l2).all f = true ↔
        ∀ i, i < l1.length → f (l1.getD i a, l2.getD i b) = true) := by
  intro l1
  induction l1 with
  | nil =>
    intro l2 hl
    simp
  | cons x xs ih =>
    intro l2 hl
    cases l2 with
    | nil => simp at hl
    | cons y ys =>
      simp only [List.length_cons, Nat.add_right_cancel_iff] at hl
      simp only [List.zip_cons_cons, List.all_cons, Bool.and_eq_true, ih ys hl]
      constructor
      · rintro ⟨hx, hrest⟩ i hi
        cases i with
        | zero => simpa using hx
        | succ k => simpa using hrest k (by simpa using hi)
      · intro hall
        refine ⟨by simpa using hall 0 (by simp), ?_⟩
        intro k hk
        simpa using hall (k + 1) (by simpa using hk)

theorem find?_eq_get {α : Type} (p : α → Bool) (l : List α) :
    ∀ (i : Nat) (h : i < l.length),
      p (l.get ⟨i, h⟩) = true →
      (∀ j (hj : j < l.length), j < i → p (l.get ⟨j, hj⟩) = false) →
      l.find? p = some (l.get ⟨i, h⟩) := by
  induction l with
  | nil =>
    intro i h
    simp at h
  | cons x xs ih =>
    intro i h hp hprev
    cases i with
    | zero =>
      simp only [List.get] at hp ⊢
      simp [List.find?_cons, hp]
    | succ k =>
      have hx : p x = false := hprev 0 (by simp) (by omega)
      have hk : k < xs.length := by simpa using h
      have hrec := ih k hk (by simpa using hp) ?_
      · simp only [List.get] at hrec ⊢
        simp [List.find?_cons, hx, hrec]
      · intro j hj hji
        simpa using hprev (j + 1) (by simpa using hj) (by omega)

/-! ## Claims about the router -/
/-- C4.  Router path matching: a pattern matches a path iff, after splitting
both on `/` and discarding empty segments, the segment lists have equal
length and at each position the pattern segment begins with `:` or equals the
path segment; `/api/notes/:id` matches `/api/notes/abc` with parameters
`{id: "abc"}` and matches neither `/api/notes` nor `/api/notes/abc/extra`. -/
theorem router_matchPath_spec :
    (∀ routePath requestPath : String,
      matchPath routePath requestPath = true ↔
        ((pathParts routePath).length = (pathParts requestPath).length ∧
          ∀ i, i < (pathParts routePath).length →
            segStartsWithColon ((pathParts routePath).getD i []) = true ∨
              (pathParts routePath).getD i [] = (pathParts requestPath).getD i [])) ∧
    matchPath "/api/notes/:id" "/api/notes/abc" = true ∧
    getPathParams "/api/notes/:id" "/api/notes/abc" = [("id", "abc")] ∧
    matchPath "/api/notes/:id" "/api/notes" = false ∧
    matchPath "/api/notes/:id" "/api/notes/abc/extra" = false := by
  refine ⟨?_, by decide, by decide, by decide, by decide⟩
  intro routePath requestPath
  unfold matchPath
  simp only [Bool.and_eq_true, beq_iff_eq, List.all_eq_true]
  constructor
  · rintro ⟨hlen, hall⟩
    refine ⟨hlen, ?_⟩
    have hiff := zip_all_iff_getD
      (fun rp => segStartsWithColon rp.1 || rp.1 == rp.2) [] []
      (pathParts routePath) (pathParts requestPath) hlen
    rw [List.all_eq_true] at hiff
    have := hiff.mp hall
    intro i hi
    have hb := this i hi
    simp only [Bool.or_eq_true, beq_iff_eq] at hb
    exact hb
  · rintro ⟨hlen, hidx⟩
    refine ⟨hlen, ?_⟩
    have hiff := zip_all_iff_getD
      (fun rp => segStartsWithColon rp.1 || rp.1 == rp.2) [] []
      (pathParts routePath) (pathParts requestPath) hlen
    rw [List.all_eq_true] at hiff
    apply hiff.mpr
    intro i hi
    have hb := hidx i hi
    simp only [Bool.or_eq_true, beq_iff_eq]
    exact hb

/-- Witness for C4 at the concrete pattern/path pair of the claim. -/

theorem router_matchPath_spec_witness :
    matchPath "/api/notes/:id" "/api/notes/abc" = true ↔
      ((pathParts "/api/notes/:id").length = (pathParts "/api/notes/abc").length ∧
        ∀ i, i < (pathParts "/api/notes/:id").length →
          segStartsWithColon ((pathParts "/api/notes/:id").getD i []) = true ∨
            (pathParts "/api/notes/:id").getD i [] = (pathParts "/api/notes/abc").getD i []) :=
  router_matchPath_spec.1 "/api/notes/:id" "/api/notes/abc"

/-- C5.  Dispatch order and fallback: for a non-OPTIONS request, `handle`
dispatches to the first registered route whose method equals the request
method and whose pattern matches the path, and returns the CORS-bearing 404
response when no route matches. -/
theorem router_dispatch_spec :
    (∀ (routes : List Route) (req : Req) (i : Nat) (h : i < routes.length),
      req.method ≠ "OPTIONS" →
      routeMatches (routes.get ⟨i, h⟩) req = true →
      (∀ j (hj : j < routes.length), j < i → routeMatches (routes.get ⟨j, hj⟩) req = false) →
      handle routes req =
        match (routes.get ⟨i, h⟩).handler req with
        | .ok resp => resp
        | .error _ => routeErrorResponse) ∧
    (∀ (routes : List Route) (req : Req),
      req.method ≠ "OPTIONS" →
      (∀ r ∈ routes, routeMatches r req = false) →
      handle routes req = notFoundResponse ∧
        notFoundResponse.status = 404 ∧
        ("Access-Control-Allow-Origin", "*") ∈ notFoundResponse.headers) := by
  constructor
  · intro routes req i h hopt hm hprev
    unfold handle
    rw [if_neg hopt, find?_eq_get _ routes i h hm hprev]
  · intro routes req hopt hnone
    unfold handle
    rw [if_neg hopt, List.find?_eq_none.mpr (fun r hr => by simp [hnone r hr])]
    exact ⟨rfl, rfl, by simp [notFoundResponse]⟩

/-- Witness for C5: a one-route table dispatches a matching request to its
handler and sends an unmatched request to the 404 fallback. -/

theorem router_dispatch_spec_witness :
    handle [{ method := "GET", path := "/api/notes",
              handler := fun _ => Except.ok (jsonResponse .emptyBody 200) }]
        { method := "GET", pathname := "/api/notes" } = jsonResponse .emptyBody 200 ∧
    handle [{ method := "GET", path := "/api/notes",
              handler := fun _ => Except.ok (jsonResponse .emptyBody 200) }]
        { method := "GET", pathname := "/nope" } = notFoundResponse := by
  constructor
  · have := router_dispatch_spec.1
      [{ method := "GET", path := "/api/notes",
         handler := fun _ => Except.ok (jsonResponse .emptyBody 200) }]
      { method := "GET", pathname := "/api/notes" } 0 (by decide)
      (by decide) (by decide) (fun j hj hji => absurd hji (by omega))
    simpa using this
  · exact (router_dispatch_spec.2
      [{ method := "GET", path := "/api/notes",
         handler := fun _ => Except.ok (jsonResponse .emptyBody 200) }]
      { method := "GET", pathname := "/nope" } (by decide)
      (fun r hr => by simp at hr; subst hr; decide)).1

/-- C10.  Handler-failure containment: whatever exception a matched handler
throws, `handle` returns the fixed 500 response with the CORS header and a
generic JSON body that carries no detail of the thrown error. -/

theorem router_handler_error_spec :
    ∀ (routes : List Route) (req : Req) (i : Nat) (h : i < routes.length) (e : String),
      req.method ≠ "OPTIONS" →
      routeMatches (routes.get ⟨i, h⟩) req = true →
      (∀ j (hj : j < routes.length), j < i → routeMatches (routes.get ⟨j, hj⟩) req = false) →
      (routes.get ⟨i, h⟩).handler req = .error e →
      handle routes req = routeErrorResponse ∧
        routeErrorResponse.status = 500 ∧
        ("Access-Control-Allow-Origin", "*") ∈ routeErrorResponse.headers ∧
        routeErrorResponse.body = .jsonError "Route handler error" := by
  intro routes req i h e hopt hm hprev herr
  unfold handle
  rw [if_neg hopt, find?_eq_get _ routes i h hm hprev]
  dsimp only
  rw [herr]
  exact ⟨rfl, rfl, by simp [routeErrorResponse], rfl⟩

/-- Witness for C10: a route whose handler throws `"boom"` yields the generic
500 response. -/

theorem router_handler_error_spec_witness :
    handle [{ method := "GET", path := "/api/notes",
              handler := fun _ => Except.error "boom" }]
        { method := "GET", pathname := "/api/notes" } = routeErrorResponse :=
  (router_handler_error_spec
    [{ method := "GET", path := "/api/notes", handler := fun _ => Except.error "boom" }]
    { method := "GET", pathname := "/api/notes" } 0 (by decide) "boom"
    (by decide) (by decide) (fun j hj hji => absurd hji (by omega)) rfl).1

theorem isPrefixOf_append_self (l r : List Nat) : l.isPrefixOf (l ++ r) = true := by
  induction l with
  | nil => simp [List.isPrefixOf]
  | cons a as ih => simp [List.isPrefixOf, ih]

theorem takeWhile_append_stop {α : Type} (p : α → Bool) (l : List α) (x : α) (r : List α)
    (hl : ∀ c ∈ l, p c = true) (hx : p x = false) :
    (l ++ x :: r).takeWhile p = l := by
  induction l with
  | nil => simp [List.takeWhile_cons, hx]
  | cons a as ih =>
    have ha : p a = true := hl a (by simp)
    simp only [List.cons_append, List.takeWhile_cons, ha, if_true]
    rw [ih (fun c hc => hl c (by simp [hc]))]

/-- What `authenticateRequest` does on a well-formed `Bearer` header whose
token decodes: it returns the decoded prefix before the first `:`, or `null`
when that prefix is empty. -/

theorem authenticateRequest_bearer (t d : List Nat) (hd : B64.atobB t = some d) :
    authenticateRequest (some (strB "Bearer " ++ t)) =
      (if d.takeWhile (fun c => c ≠ 58) = [] then none
       else some (d.takeWhile (fun c => c ≠ 58))) := by
  unfold authenticateRequest
  dsimp only
  rw [if_pos (isPrefixOf_append_self (strB "Bearer ") t)]
  have hdrop : (strB "Bearer " ++ t).drop 7 = t := by
    rw [show (7 : Nat) = (strB "Bearer ").length from rfl]
    exact List.drop_left _ _
  rw [hdrop, hd]
  have hne := splitOnByte_ne_nil 58 d
  have hh := splitOnByte_head 58 d
  cases hsp : splitOnByte 58 d with
  | nil => exact absurd hsp hne
  | cons u0 ss =>
    rw [hsp] at hh
    simp only [List.head?, Option.some.injEq] at hh
    subst hh
    dsimp only
    rw [hsp]

/-- C1 counterexample.  The token `ZXZlOjE=` (`btoa("eve:1")`) was never
issued by the server and is stored in no session table — the code keeps no
token table at all — yet `authenticateRequest` accepts it and returns the
user id `eve` instead of `null`. -/
theorem authenticate_unknown_token_accepted :
    authenticateRequest (some (strB "Bearer ZXZlOjE=")) = some (strB "eve") ∧
      authenticateRequest (some (strB "Bearer ZXZlOjE=")) ≠ none := by
  constructor
  · decide
  · decide

/-- C1 (amended).  `authenticateRequest` is a total function (never throws)
that returns `null` for a missing header, a header without the `Bearer `
shape, a token `atob` rejects, or a decoded token whose segment before the
first `:` is empty; otherwise it returns that segment as the user identity —
resolved by decoding alone, with no session-store lookup (the function reads
no store).  Every notes handler maps the `null` outcome to a 401 response. -/

theorem authenticate_spec :
    authenticateRequest none = none ∧
    (∀ h : List Nat, (strB "Bearer ").isPrefixOf h = false →
      authenticateRequest (some h) = none) ∧
    (∀ t : List Nat, B64.atobB t = none →
      authenticateRequest (some (strB "Bearer " ++ t)) = none) ∧
    (∀ t d : List Nat, B64.atobB t = some d →
      authenticateRequest (some (strB "Bearer " ++ t)) =
        (if d.takeWhile (fun c => c ≠ 58) = [] then none
         else some (d.takeWhile (fun c => c ≠ 58)))) ∧
    (∀ (getTime : List Nat → Int) (h : Option (List Nat)) (store : NotesStore)
        (body : NoteBody) (pathname newId now : List Nat),
      authenticateRequest h = none →
      getNotes getTime h store = errorResponse "Unauthorized" 401 ∧
      createNote h body newId now store = (errorResponse "Unauthorized" 401, store) ∧
      updateNote h pathname body now store = (errorResponse "Unauthorized" 401, store) ∧
      deleteNote h pathname store = (errorResponse "Unauthorized" 401, store)) := by
  refine ⟨rfl, ?_, ?_, ?_, ?_⟩
  · intro h hpre
    unfold authenticateRequest
    dsimp only
    rw [if_neg (by simp [hpre])]
  · intro t hnone
    unfold authenticateRequest
    dsimp only
    rw [if_pos (isPrefixOf_append_self (strB "Bearer ") t)]
    have hdrop : (strB "Bearer " ++ t).drop 7 = t := by
      rw [show (7 : Nat) = (strB "Bearer ").length from rfl]
      exact List.drop_left _ _
    rw [hdrop, hnone]
  · exact authenticateRequest_bearer
  · intro getTime h store body pathname newId now hauth
    refine ⟨?_, ?_, ?_, ?_⟩
    · unfold getNotes
      rw [hauth]
    · unfold createNote
      rw [hauth]
    · unfold updateNote
      rw [hauth]
    · unfold deleteNote
      rw [hauth]

/-- Witness for C1 (amended): a malformed header, an undecodable token and a
decodable token, each at a concrete value, plus the 401 mapping in `getNotes`. -/

theorem authenticate_spec_witness :
    authenticateRequest (some (strB "Basic xyz")) = none ∧
    authenticateRequest (some (strB "Bearer " ++ strB "!!")) = none ∧
    authenticateRequest (some (strB "Bearer " ++ strB "ZXZlOjE=")) = some (strB "eve") ∧
    getNotes (fun _ => 0) none [] = errorResponse "Unauthorized" 401 := by
  refine ⟨?_, ?_, ?_, ?_⟩
  · exact authenticate_spec.2.1 (strB "Basic xyz") (by decide)
  · exact authenticate_spec.2.2.1 (strB "!!") (by decide)
  · exact (authenticate_spec.2.2.2.1 (strB "ZXZlOjE=") (strB "eve:1") (by decide)).trans
      (by decide)
  · exact (authenticate_spec.2.2.2.2 (fun _ => 0) none [] ⟨none, none⟩ [] [] [] rfl).1

/-- C2.  Token issuance composed with authentication is the identity on
(colon-free, non-empty) user ids: `generateToken(u)` is the base64 encoding
of `u:timestamp:random`, and presenting it as `Bearer <token>` makes
`authenticateRequest` — which consults no server-side table, having no store
argument at all — decode it and return `u`; moreover any base64 string whose
decoding has a non-empty segment before the first `:` authenticates as that
segment. -/

theorem token_roundtrip_spec :
    (∀ u ts rnd : List Nat,
      u ≠ [] → (∀ c ∈ u, c < 256) → (58 : Nat) ∉ u →
      (∀ c ∈ ts, c < 256) → (∀ c ∈ rnd, c < 256) →
      ∃ t, generateToken u ts rnd = some t ∧
        B64.atobB t = some (u ++ [58] ++ ts ++ [58] ++ rnd) ∧
        authenticateRequest (some (strB "Bearer " ++ t)) = some u) ∧
    (∀ t d : List Nat, B64.atobB t = some d →
      d.takeWhile (fun c => c ≠ 58) ≠ [] →
      authenticateRequest (some (strB "Bearer " ++ t)) =
        some (d.takeWhile (fun c => c ≠ 58))) := by
  constructor
  · intro u ts rnd hu hu256 hcolon hts hrnd
    have hall : ∀ x ∈ u ++ [58] ++ ts ++ [58] ++ rnd, x < 256 := by
      intro x hx
      simp only [List.mem_append, List.mem_singleton] at hx
      rcases hx with ((((hx | hx) | hx) | hx) | hx)
      · exact hu256 x hx
      · omega
      · exact hts x hx
      · omega
      · exact hrnd x hx
    obtain ⟨henc, hdec⟩ := B64.atobB_btoaB (u ++ [58] ++ ts ++ [58] ++ rnd) hall
    refine ⟨B64.encodeB64 (u ++ [58] ++ ts ++ [58] ++ rnd), henc, hdec, ?_⟩
    rw [authenticateRequest_bearer _ _ hdec]
    have htake : (u ++ [58] ++ ts ++ [58] ++ rnd).takeWhile (fun c => c ≠ 58) = u := by
      have hassoc : u ++ [58] ++ ts ++ [58] ++ rnd = u ++ 58 :: (ts ++ [58] ++ rnd) := by
        simp [List.append_assoc]
      rw [hassoc]
      exact takeWhile_append_stop _ u 58 _
        (fun c hc => by simp; exact fun he => hcolon (he ▸ hc)) (by simp)
    rw [htake, if_neg hu]
  · intro t d hd hne
    rw [authenticateRequest_bearer t d hd, if_neg hne]

/-- Witness for C2: the round trip at `u = "u1"`, and the forged token
`btoa("eve:1")` authenticating as `eve`. -/

theorem token_roundtrip_spec_witness :
    (∃ t, generateToken (strB "u1") (strB "7") (strB "r") = some t ∧
      B64.atobB t = some (strB "u1" ++ [58] ++ strB "7" ++ [58] ++ strB "r") ∧
      authenticateRequest (some (strB "Bearer " ++ t)) = some (strB "u1")) ∧
    authenticateRequest (some (strB "Bearer " ++ strB "ZXZlOjE=")) = some (strB "eve") :=
  ⟨token_roundtrip_spec.1 (strB "u1") (strB "7") (strB "r")
      (by decide) (by decide) (by decide) (by decide) (by decide),
    (token_roundtrip_spec.2 (strB "ZXZlOjE=") (strB "eve:1") (by decide) (by decide)).trans
      (by decide)⟩

/-- C7.  Login non-enumeration: a login whose username has no stored record
and a login whose username exists but whose password fails the hash check
produce literally the same response — 401 with body
`{error: "Invalid credentials"}`. -/
theorem login_no_enumeration_spec :
    ∀ (cmp1 cmp2 : List Nat → List Nat → Bool) (users1 users2 : UserStore)
      (b1 b2 : AuthBody) (ts1 rnd1 ts2 rnd2 : List Nat) (user : User),
      jsTruthy b1.username = true → jsTruthy b1.password = true →
      jsTruthy b2.username = true → jsTruthy b2.password = true →
      kvGetUser users1 (b1.username.getD []) = none →
      kvGetUser users2 (b2.username.getD []) = some user →
      cmp2 (b2.password.getD []) user.passwordHash = false →
      login cmp1 users1 b1 ts1 rnd1 = login cmp2 users2 b2 ts2 rnd2 ∧
        login cmp1 users1 b1 ts1 rnd1 = errorResponse "Invalid credentials" 401 := by
  intro cmp1 cmp2 users1 users2 b1 b2 ts1 rnd1 ts2 rnd2 user h1u h1p h2u h2p habs hpres hcmp
  have e1 : login cmp1 users1 b1 ts1 rnd1 = errorResponse "Invalid credentials" 401 := by
    unfold login
    rw [if_neg (by simp [h1u, h1p]), habs]
  have e2 : login cmp2 users2 b2 ts2 rnd2 = errorResponse "Invalid credentials" 401 := by
    unfold login
    rw [if_neg (by simp [h2u, h2p]), hpres]
    dsimp only
    simp [hcmp]
  exact ⟨e1.trans e2.symm, e1⟩

/-- Witness for C7: empty user table vs. a table holding `bob` with a failing
hash check — equal responses. -/

theorem login_no_enumeration_spec_witness :
    login (fun _ _ => false) [] ⟨some (strB "alice"), some (strB "pw")⟩ (strB "7") (strB "r") =
      login (fun _ _ => false)
        [(strB "bob", { id := strB "id", username := strB "bob",
                        passwordHash := strB "h", createdAt := strB "t" })]
        ⟨some (strB "bob"), some (strB "pw")⟩ (strB "7") (strB "r") ∧
    login (fun _ _ => false) [] ⟨some (strB "alice"), some (strB "pw")⟩ (strB "7") (strB "r") =
      errorResponse "Invalid credentials" 401 :=
  login_no_enumeration_spec (fun _ _ => false) (fun _ _ => false) []
    [(strB "bob", { id := strB "id", username := strB "bob",
                    passwordHash := strB "h", createdAt := strB "t" })]
    ⟨some (strB "alice"), some (strB "pw")⟩ ⟨some (strB "bob"), some (strB "pw")⟩
    (strB "7") (strB "r") (strB "7") (strB "r")
    { id := strB "id", username := strB "bob", passwordHash := strB "h", createdAt := strB "t" }
    (by decide) (by decide) (by decide) (by decide) (by decide) (by decide) rfl

/-- C6.  Register contract: 400 for a missing (falsy) username or password or
a password shorter than 6; 409 when the username already has a record;
otherwise the user `{id, username, passwordHash, createdAt}` is stored under
the username and the response is 201 with `{token, user:{id, username,
createdAt}}`; the response component never depends on the password hash. -/

theorem register_contract_spec :
    (∀ (hash : List Nat) (users : UserStore) (body : AuthBody) (newId now ts rnd : List Nat),
      (jsTruthy body.username = false ∨ jsTruthy body.password = false) →
      register hash users body newId now ts rnd =
        (errorResponse "Username and password are required" 400, users)) ∧
    (∀ (hash : List Nat) (users : UserStore) (body : AuthBody) (newId now ts rnd : List Nat),
      jsTruthy body.username = true → jsTruthy body.password = true →
      (body.password.getD []).length < 6 →
      register hash users body newId now ts rnd =
        (errorResponse "Password must be at least 6 characters" 400, users)) ∧
    (∀ (hash : List Nat) (users : UserStore) (body : AuthBody) (newId now ts rnd : List Nat)
        (u0 : User),
      jsTruthy body.username = true → jsTruthy body.password = true →
      ¬ (body.password.getD []).length < 6 →
      kvGetUser users (body.username.getD []) = some u0 →
      register hash users body newId now ts rnd =
        (errorResponse "Username already exists" 409, users)) ∧
    (∀ (hash : List Nat) (users : UserStore) (body : AuthBody) (newId now ts rnd : List Nat),
      jsTruthy body.username = true → jsTruthy body.password = true →
      ¬ (body.password.getD []).length < 6 →
      kvGetUser users (body.username.getD []) = none →
      (∀ c ∈ newId, c < 256) → (∀ c ∈ ts, c < 256) → (∀ c ∈ rnd, c < 256) →
      ∃ t, generateToken newId ts rnd = some t ∧
        register hash users body newId now ts rnd =
          (jsonResponse (.authOk t newId (body.username.getD []) now) 201,
            kvPutUser users (body.username.getD [])
              { id := newId, username := body.username.getD [],
                passwordHash := hash, createdAt := now })) ∧
    (∀ (h1 h2 : List Nat) (users : UserStore) (body : AuthBody) (newId now ts rnd : List Nat),
      (register h1 users body newId now ts rnd).1 = (register h2 users body newId now ts rnd).1) := by
  refine ⟨?_, ?_, ?_, ?_, ?_⟩
  · intro hash users body newId now ts rnd hval
    unfold register
    rcases hval with hval | hval <;> rw [if_pos (by simp [hval])]
  · intro hash users body newId now ts rnd hu hp hlen
    unfold register
    rw [if_neg (by simp [hu, hp]), if_pos hlen]
  · intro hash users body newId now ts rnd u0 hu hp hlen hkv
    unfold register
    rw [if_neg (by simp [hu, hp]), if_neg hlen, hkv]
  · intro hash users body newId now ts rnd hu hp hlen hkv hid hts hrnd
    have hall : ∀ x ∈ newId ++ [58] ++ ts ++ [58] ++ rnd, x < 256 := by
      intro x hx
      simp only [List.mem_append, List.mem_singleton] at hx
      rcases hx with ((((hx | hx) | hx) | hx) | hx)
      · exact hid x hx
      · omega
      · exact hts x hx
      · omega
      · exact hrnd x hx
    obtain ⟨henc, _⟩ := B64.atobB_btoaB (newId ++ [58] ++ ts ++ [58] ++ rnd) hall
    have hgen : generateToken newId ts rnd =
        some (B64.encodeB64 (newId ++ [58] ++ ts ++ [58] ++ rnd)) := by
      unfold generateToken
      exact henc
    refine ⟨B64.encodeB64 (newId ++ [58] ++ ts ++ [58] ++ rnd), hgen, ?_⟩
    unfold register
    rw [if_neg (by simp [hu, hp]), if_neg hlen, hkv]
    dsimp only
    rw [hgen]
  · intro h1 h2 users body newId now ts rnd
    unfold register
    by_cases hval : (!jsTruthy body.username || !jsTruthy body.password) = true
    · rw [if_pos hval, if_pos hval]
    · rw [if_neg hval, if_neg hval]
      by_cases hlen : (body.password.getD []).length < 6
      · rw [if_pos hlen, if_pos hlen]
      · rw [if_neg hlen, if_neg hlen]
        cases hkv : kvGetUser users (body.username.getD []) with
        | none =>
          dsimp only
          cases hgen : generateToken newId ts rnd with
          | none => rfl
          | some t => rfl
        | some u0 => rfl

/-- Witness for C6: a successful registration of `bob` on an empty table. -/

theorem register_contract_spec_witness :
    ∃ t, generateToken (strB "id1") (strB "7") (strB "r") = some t ∧
      register (strB "H") [] ⟨some (strB "bob"), some (strB "secret1")⟩
          (strB "id1") (strB "now") (strB "7") (strB "r") =
        (jsonResponse (.authOk t (strB "id1") (strB "bob") (strB "now")) 201,
          kvPutUser [] (strB "bob")
            { id := strB "id1", username := strB "bob",
              passwordHash := strB "H", createdAt := strB "now" }) :=
  register_contract_spec.2.2.2.1 (strB "H") [] ⟨some (strB "bob"), some (strB "secret1")⟩
    (strB "id1") (strB "now") (strB "7") (strB "r")
    (by decide) (by decide) (by decide) (by decide) (by decide) (by decide) (by decide)

/-- C8.  Update frame and monotonicity: an authenticated update of an existing
owned note changes only the supplied fields, keeps `id`, `userId`,
`createdAt` (and any unsupplied field), sets `updatedAt := now` (hence ≥ the
previous `updatedAt` whenever the clock is monotone), rejects a body with
neither field with 400 leaving the store unchanged, and answers 404 with the
store unchanged for an id that resolves to no stored note of the caller. -/
theorem update_frame_spec :
    (∀ (h : Option (List Nat)) (u pathname : List Nat) (body : NoteBody)
        (now : List Nat) (store : NotesStore) (n0 : Note) (getTime : List Nat → Int),
      authenticateRequest h = some u →
      lastSeg pathname ≠ [] →
      (jsTruthy body.title = true ∨ jsTruthy body.content = true) →
      kvGet store (noteKey u (lastSeg pathname)) = some n0 →
      updateNote h pathname body now store =
        (jsonResponse (.noteOne
            { id := n0.id, userId := n0.userId,
              title := body.title.getD n0.title,
              content := body.content.getD n0.content,
              createdAt := n0.createdAt, updatedAt := now }) 200,
          kvPut store (noteKey u (lastSeg pathname))
            { id := n0.id, userId := n0.userId,
              title := body.title.getD n0.title,
              content := body.content.getD n0.content,
              createdAt := n0.createdAt, updatedAt := now }) ∧
        (getTime n0.updatedAt ≤ getTime now →
          getTime n0.updatedAt ≤ getTime
            ({ id := n0.id, userId := n0.userId,
               title := body.title.getD n0.title,
               content := body.content.getD n0.content,
               createdAt := n0.createdAt, updatedAt := now } : Note).updatedAt)) ∧
    (∀ (h : Option (List Nat)) (u pathname : List Nat) (body : NoteBody)
        (now : List Nat) (store : NotesStore),
      authenticateRequest h = some u →
      lastSeg pathname ≠ [] →
      jsTruthy body.title = false → jsTruthy body.content = false →
      updateNote h pathname body now store =
        (errorResponse "At least title or content must be provided" 400, store)) ∧
    (∀ (h : Option (List Nat)) (u pathname : List Nat) (body : NoteBody)
        (now : List Nat) (store : NotesStore),
      authenticateRequest h = some u →
      lastSeg pathname ≠ [] →
      (jsTruthy body.title = true ∨ jsTruthy body.content = true) →
      kvGet store (noteKey u (lastSeg pathname)) = none →
      updateNote h pathname body now store =
        (errorResponse "Note not found" 404, store)) := by
  refine ⟨?_, ?_, ?_⟩
  · intro h u pathname body now store n0 getTime hauth hnid hsup hkv
    refine ⟨?_, fun hc => hc⟩
    unfold updateNote
    rw [hauth]
    dsimp only
    rw [if_neg hnid, if_neg (by rcases hsup with hs | hs <;> simp [hs]), hkv]
  · intro h u pathname body now store hauth hnid ht hc
    unfold updateNote
    rw [hauth]
    dsimp only
    rw [if_neg hnid, if_pos (by simp [ht, hc])]
  · intro h u pathname body now store hauth hnid hsup hkv
    unfold updateNote
    rw [hauth]
    dsimp only
    rw [if_neg hnid, if_neg (by rcases hsup with hs | hs <;> simp [hs]), hkv]

/-- Witness for C8: `u1` updates the title of its stored note `n1`. -/

theorem update_frame_spec_witness :
    updateNote (some (strB "Bearer dTE6eA==")) (strB "/api/notes/n1")
        ⟨some (strB "T1"), none⟩ (strB "now2")
        [(noteKey (strB "u1") (strB "n1"),
          { id := strB "n1", userId := strB "u1", title := strB "T0",
            content := strB "C0", createdAt := strB "c1", updatedAt := strB "m1" })] =
      (jsonResponse (.noteOne
          { id := strB "n1", userId := strB "u1", title := strB "T1",
            content := strB "C0", createdAt := strB "c1", updatedAt := strB "now2" }) 200,
        kvPut [(noteKey (strB "u1") (strB "n1"),
            { id := strB "n1", userId := strB "u1", title := strB "T0",
              content := strB "C0", createdAt := strB "c1", updatedAt := strB "m1" })]
          (noteKey (strB "u1") (strB "n1"))
          { id := strB "n1", userId := strB "u1", title := strB "T1",
            content := strB "C0", createdAt := strB "c1", updatedAt := strB "now2" }) :=
  (update_frame_spec.1 (some (strB "Bearer dTE6eA==")) (strB "u1") (strB "/api/notes/n1")
    ⟨some (strB "T1"), none⟩ (strB "now2")
    [(noteKey (strB "u1") (strB "n1"),
      { id := strB "n1", userId := strB "u1", title := strB "T0",
        content := strB "C0", createdAt := strB "c1", updatedAt := strB "m1" })]
    { id := strB "n1", userId := strB "u1", title := strB "T0",
      content := strB "C0", createdAt := strB "c1", updatedAt := strB "m1" }
    (fun _ => 0) (by decide) (by decide) (Or.inl (by decide)) (by decide)).1

theorem noteKey_eq_append (u nid : List Nat) :
    noteKey u nid = userNotesKey u ++ 58 :: nid := by
  unfold noteKey userNotesKey
  rw [show strB ":notes:" = strB ":notes" ++ [58] from rfl]
  simp [List.append_assoc]

theorem find?_append_none {α : Type} (p : α → Bool) (l1 l2 : List α)
    (h : l1.find? p = none) : (l1 ++ l2).find? p = l2.find? p := by
  induction l1 with
  | nil => simp
  | cons x xs ih =>
    cases hp : p x with
    | true => simp [List.find?_cons, hp] at h
    | false =>
      rw [List.find?_cons, hp] at h
      rw [List.cons_append, List.find?_cons, hp]
      exact ih h

theorem kvGet_kvPut_self (store : NotesStore) (k : List Nat) (v : Note) :
    kvGet (kvPut store k v) k = some v := by
  unfold kvGet kvPut
  rw [find?_append_none]
  · simp [List.find?]
  · refine List.find?_eq_none.mpr ?_
    intro e he
    have := (List.mem_filter.mp he).2
    simp at this ⊢
    exact this

/-- C9.  Create-then-list round-trip: for an authenticated user with no prior
notes, creating `{title: T, content: C}` stores the note and a subsequent
listing yields exactly that one note, with matching title and content and
`createdAt = updatedAt`. -/

theorem create_then_list_spec :
    ∀ (h : Option (List Nat)) (u T C newId now : List Nat) (store : NotesStore)
      (getTime : List Nat → Int),
      authenticateRequest h = some u →
      T ≠ [] → C ≠ [] →
      (∀ e ∈ store, (userNotesKey u).isPrefixOf e.1 = false) →
      ∃ n : Note,
        createNote h ⟨some T, some C⟩ newId now store =
          (jsonResponse (.noteOne n) 201, kvPut store (noteKey u newId) n) ∧
        getNotes getTime h (kvPut store (noteKey u newId) n) =
          jsonResponse (.noteList [n]) 200 ∧
        n.id = newId ∧ n.userId = u ∧ n.title = T ∧ n.content = C ∧
        n.createdAt = now ∧ n.updatedAt = now ∧ n.createdAt = n.updatedAt := by
  intro h u T C newId now store getTime hauth hT hC hfresh
  refine ⟨⟨newId, u, T, C, now, now⟩, ?_, ?_, rfl, rfl, rfl, rfl, rfl, rfl, rfl⟩
  · unfold createNote
    rw [hauth]
    dsimp only
    rw [if_neg (by simp [jsTruthy, hT, hC])]
    rfl
  · unfold getNotes
    rw [hauth]
    dsimp only
    have hkeys : kvListKeys (kvPut store (noteKey u newId)
        ⟨newId, u, T, C, now, now⟩) (userNotesKey u) = [noteKey u newId] := by
      unfold kvListKeys kvPut
      rw [List.map_append, List.filter_append]
      have h1 : ((store.filter fun e => ¬ e.1 = noteKey u newId).map (fun e => e.1)).filter
          (fun k => (userNotesKey u).isPrefixOf k) = [] := by
        refine List.filter_eq_nil_iff.mpr ?_
        intro k hk
        obtain ⟨e, he, rfl⟩ := List.mem_map.mp hk
        have := (List.mem_filter.mp he).1
        simp [hfresh e this]
      have h2 : (([(noteKey u newId, (⟨newId, u, T, C, now, now⟩ : Note))]).map
          (fun e => e.1)).filter
          (fun k => (userNotesKey u).isPrefixOf k) = [noteKey u newId] := by
        have hpre : (userNotesKey u).isPrefixOf (noteKey u newId) = true := by
          rw [noteKey_eq_append]
          exact isPrefixOf_append_self _ _
        simp [List.filter, hpre]
      rw [h1, h2, List.nil_append]
    rw [hkeys]
    rw [show ([noteKey u newId].filterMap fun k =>
        kvGet (kvPut store (noteKey u newId) ⟨newId, u, T, C, now, now⟩) k) =
        [(⟨newId, u, T, C, now, now⟩ : Note)] from by
      simp [List.filterMap, kvGet_kvPut_self]]
    rfl

/-- Witness for C9: user `u1` creates a first note on an empty store and lists
it back. -/

theorem create_then_list_spec_witness :
    ∃ n : Note,
      createNote (some (strB "Bearer dTE6eA==")) ⟨some (strB "T"), some (strB "C")⟩
          (strB "n1") (strB "t0") [] =
        (jsonResponse (.noteOne n) 201, kvPut [] (noteKey (strB "u1") (strB "n1")) n) ∧
      getNotes (fun _ => 0) (some (strB "Bearer dTE6eA=="))
          (kvPut [] (noteKey (strB "u1") (strB "n1")) n) =
        jsonResponse (.noteList [n]) 200 ∧
      n.id = strB "n1" ∧ n.userId = strB "u1" ∧ n.title = strB "T" ∧
      n.content = strB "C" ∧ n.createdAt = strB "t0" ∧ n.updatedAt = strB "t0" ∧
      n.createdAt = n.updatedAt :=
  create_then_list_spec (some (strB "Bearer dTE6eA==")) (strB "u1") (strB "T") (strB "C")
    (strB "n1") (strB "t0") [] (fun _ => 0) (by decide) (by decide) (by decide)
    (by intro e he; simp at he)

theorem colon_prefix_eq : ∀ (u v r1 r2 : List Nat), (58 : Nat) ∉ u → (58 : Nat) ∉ v →
    (u ++ 58 :: r1) <+: (v ++ 58 :: r2) → u = v := by
  intro u
  induction u with
  | nil =>
    intro v r1 r2 hu hv hp
    cases v with
    | nil => rfl
    | cons b vs =>
      obtain ⟨t, ht⟩ := hp
      simp only [List.nil_append, List.cons_append] at ht
      injection ht with h1 _
      subst h1
      exact absurd (List.mem_cons_self _ _) hv
  | cons a us ih =>
    intro v r1 r2 hu hv hp
    cases v with
    | nil =>
      obtain ⟨t, ht⟩ := hp
      simp only [List.cons_append, List.nil_append] at ht
      injection ht with h1 _
      subst h1
      exact absurd (List.mem_cons_self _ _) hu
    | cons b vs =>
      obtain ⟨t, ht⟩ := hp
      simp only [List.cons_append] at ht
      injection ht with h1 h2
      have hus : us = vs := ih vs r1 r2 (fun hm => hu (by simp [hm]))
        (fun hm => hv (by simp [hm])) ⟨t, h2⟩
      rw [h1, hus]

theorem userNotesKey_shape (u : List Nat) :
    userNotesKey u = strB "user:" ++ (u ++ 58 :: strB "notes") := by
  unfold userNotesKey
  rw [show strB ":notes" = 58 :: strB "notes" from rfl]
  simp [List.append_assoc]

theorem noteKey_shape (v nid : List Nat) :
    noteKey v nid = strB "user:" ++ (v ++ 58 :: (strB "notes:" ++ nid)) := by
  unfold noteKey
  rw [show strB ":notes:" = 58 :: strB "notes:" from rfl]
  simp [List.append_assoc]

/-- A user-scoped list prefix only reaches keys of that same user. -/

theorem prefix_key_owner_eq (u v nid : List Nat) (hu : (58 : Nat) ∉ u) (hv : (58 : Nat) ∉ v)
    (hp : (userNotesKey u).isPrefixOf (noteKey v nid) = true) : u = v := by
  rw [List.isPrefixOf_iff_prefix] at hp
  rw [userNotesKey_shape, noteKey_shape] at hp
  rw [List.prefix_append_right_inj] at hp
  exact colon_prefix_eq u v _ _ hu hv hp

/-- Composite note keys are injective for colon-free user ids. -/

theorem noteKey_inj (u v nid mid : List Nat) (hu : (58 : Nat) ∉ u) (hv : (58 : Nat) ∉ v)
    (he : noteKey u nid = noteKey v mid) : u = v ∧ nid = mid := by
  rw [noteKey_shape, noteKey_shape] at he
  have hXY := List.append_cancel_left he
  have huv : u = v := colon_prefix_eq u v (strB "notes:" ++ nid) (strB "notes:" ++ mid)
    hu hv ⟨[], by simp [hXY]⟩
  subst huv
  have h2 := List.append_cancel_left hXY
  injection h2 with _ h3
  exact ⟨rfl, List.append_cancel_left h3⟩

/-- In a well-formed store in which no note with this id belongs to `u`, the
key `u` would use for that id resolves to nothing. -/

theorem kvGet_cross_user_none (u nid : List Nat) (store : NotesStore)
    (hwf : WFNotes store) (hu : (58 : Nat) ∉ u)
    (hno : ∀ e ∈ store, e.2.id = nid → e.2.userId ≠ u) :
    kvGet store (noteKey u nid) = none := by
  unfold kvGet
  rw [List.find?_eq_none.mpr]
  · rfl
  · intro e he
    obtain ⟨hk, hcolon⟩ := hwf e he
    intro hpred
    have hkey : e.1 = noteKey u nid := by simpa using hpred
    rw [hk] at hkey
    obtain ⟨hu', hid⟩ := noteKey_inj e.2.userId u e.2.id nid hcolon hu hkey
    exact hno e he hid hu'

/-- C3.  Note ownership isolation: a well-formed store keyed by owner ids
yields listings containing only the caller's notes, and an update or delete
aimed at an id whose note belongs to a different user answers 404 (the
resource is simply not under the caller's key) leaving the store unchanged. -/

theorem ownership_isolation_spec :
    (∀ (getTime : List Nat → Int) (h : Option (List Nat)) (u : List Nat)
        (store : NotesStore),
      authenticateRequest h = some u → WFNotes store → (58 : Nat) ∉ u →
      ∃ l, getNotes getTime h store = jsonResponse (.noteList l) 200 ∧
        (∀ n ∈ l, n.userId = u) ∧
        (∀ n' : Note, n'.userId ≠ u → n' ∉ l)) ∧
    (∀ (h : Option (List Nat)) (u u' pathname nid : List Nat) (body : NoteBody)
        (now : List Nat) (store : NotesStore) (n' : Note),
      authenticateRequest h = some u → WFNotes store → (58 : Nat) ∉ u →
      lastSeg pathname = nid → nid ≠ [] →
      (noteKey u' nid, n') ∈ store → n'.userId = u' → u' ≠ u →
      (∀ e ∈ store, e.2.id = nid → e.2.userId ≠ u) →
      (jsTruthy body.title = true ∨ jsTruthy body.content = true) →
      updateNote h pathname body now store = (errorResponse "Note not found" 404, store)) ∧
    (∀ (h : Option (List Nat)) (u u' pathname nid : List Nat) (store : NotesStore) (n' : Note),
      authenticateRequest h = some u → WFNotes store → (58 : Nat) ∉ u →
      lastSeg pathname = nid → nid ≠ [] →
      (noteKey u' nid, n') ∈ store → n'.userId = u' → u' ≠ u →
      (∀ e ∈ store, e.2.id = nid → e.2.userId ≠ u) →
      deleteNote h pathname store = (errorResponse "Note not found" 404, store)) := by
  refine ⟨?_, ?_, ?_⟩
  · intro getTime h u store hauth hwf hu
    unfold getNotes
    rw [hauth]
    dsimp only
    have hall : ∀ n ∈ sortLe (fun a b => getTime b.updatedAt ≤ getTime a.updatedAt)
        ((kvListKeys store (userNotesKey u)).filterMap (fun k => kvGet store k)),
        n.userId = u := by
      intro n hn
      rw [mem_sortLe] at hn
      obtain ⟨k, hkmem, hkget⟩ := List.mem_filterMap.mp hn
      unfold kvGet at hkget
      cases hf : store.find? (fun e => e.1 = k) with
      | none => rw [hf] at hkget; simp at hkget
      | some e =>
        rw [hf] at hkget
        simp only [Option.map_some', Option.some.injEq] at hkget
        have hmem := List.mem_of_find?_eq_some hf
        have hpred : e.1 = k := by simpa using List.find?_some hf
        obtain ⟨hk, hcolon⟩ := hwf e hmem
        unfold kvListKeys at hkmem
        have hpre := (List.mem_filter.mp hkmem).2
        rw [← hpred, hk] at hpre
        have := prefix_key_owner_eq u e.2.userId e.2.id hu hcolon hpre
        rw [← hkget, ← this]
    exact ⟨_, rfl, hall, fun n' hne hmem => hne (hall n' hmem)⟩
  · intro h u u' pathname nid body now store n' hauth hwf hu hpath hnid hmem hown hneq hno hsup
    have hnone := kvGet_cross_user_none u nid store hwf hu hno
    unfold updateNote
    rw [hauth]
    dsimp only
    rw [hpath, if_neg hnid, if_neg (by rcases hsup with hs | hs <;> simp [hs]), hnone]
  · intro h u u' pathname nid store n' hauth hwf hu hpath hnid hmem hown hneq hno
    have hnone := kvGet_cross_user_none u nid store hwf hu hno
    unfold deleteNote
    rw [hauth]
    dsimp only
    rw [hpath, if_neg hnid, hnone]

/-- Witness for C3: `u1` cannot see, update or delete `u2`'s note `n1`. -/

theorem ownership_isolation_spec_witness :
    (∃ l, getNotes (fun _ => 0) (some (strB "Bearer dTE6eA=="))
        [(noteKey (strB "u2") (strB "n1"),
          (⟨strB "n1", strB "u2", strB "T", strB "C", strB "c", strB "m"⟩ : Note))] =
        jsonResponse (.noteList l) 200 ∧
      (∀ n ∈ l, n.userId = strB "u1") ∧
      (∀ n' : Note, n'.userId ≠ strB "u1" → n' ∉ l)) ∧
    updateNote (some (strB "Bearer dTE6eA==")) (strB "/api/notes/n1")
        ⟨some (strB "T2"), none⟩ (strB "now2")
        [(noteKey (strB "u2") (strB "n1"),
          (⟨strB "n1", strB "u2", strB "T", strB "C", strB "c", strB "m"⟩ : Note))] =
      (errorResponse "Note not found" 404,
        [(noteKey (strB "u2") (strB "n1"),
          (⟨strB "n1", strB "u2", strB "T", strB "C", strB "c", strB "m"⟩ : Note))]) ∧
    deleteNote (some (strB "Bearer dTE6eA==")) (strB "/api/notes/n1")
        [(noteKey (strB "u2") (strB "n1"),
          (⟨strB "n1", strB "u2", strB "T", strB "C", strB "c", strB "m"⟩ : Note))] =
      (errorResponse "Note not found" 404,
        [(noteKey (strB "u2") (strB "n1"),
          (⟨strB "n1", strB "u2", strB "T", strB "C", strB "c", strB "m"⟩ : Note))]) :=
  ⟨ownership_isolation_spec.1 (fun _ => 0) (some (strB "Bearer dTE6eA==")) (strB "u1")
      [(noteKey (strB "u2") (strB "n1"),
        (⟨strB "n1", strB "u2", strB "T", strB "C", strB "c", strB "m"⟩ : Note))]
      (by decide) (by decide) (by decide),
    ownership_isolation_spec.2.1 (some (strB "Bearer dTE6eA==")) (strB "u1") (strB "u2")
      (strB "/api/notes/n1") (strB "n1") ⟨some (strB "T2"), none⟩ (strB "now2")
      [(noteKey (strB "u2") (strB "n1"),
        (⟨strB "n1", strB "u2", strB "T", strB "C", strB "c", strB "m"⟩ : Note))]
      (⟨strB "n1", strB "u2", strB "T", strB "C", strB "c", strB "m"⟩ : Note)
      (by decide) (by decide) (by decide) (by decide) (by decide) (by decide) rfl
      (by decide) (by decide) (Or.inl (by decide)),
    ownership_isolation_spec.2.2 (some (strB "Bearer dTE6eA==")) (strB "u1") (strB "u2")
      (strB "/api/notes/n1") (strB "n1")
      [(noteKey (strB "u2") (strB "n1"),
        (⟨strB "n1", strB "u2", strB "T", strB "C", strB "c", strB "m"⟩ : Note))]
      (⟨strB "n1", strB "u2", strB "T", strB "C", strB "c", strB "m"⟩ : Note)
      (by decide) (by decide) (by decide) (by decide) (by decide) (by decide) rfl
      (by decide) (by decide)⟩

end MiniNotes
